import Mathlib

/-
Verification of the menstrual-cycle log / calendar aggregation core of the
hada-lumi frontend (src/frontend/src/components/calendar/CalendarPage.tsx,
CalendarCell.tsx, src/frontend/src/components/cycles/CyclesScreen.tsx).

Shallow-embedding conventions:

* A JavaScript `Date` produced by `new Date(y, m, d)` (a local-midnight date)
  is denoted by its absolute day number: the number of days since 0000-01-01
  in the proleptic Gregorian calendar, as an `Int`.  The JS constructor
  normalizes out-of-range month/day components; `mkDate` reproduces that
  normalization (months via floor-division by 12, days by plain addition).
  The legacy JS remapping of literal year arguments 0..99 to 1900+year is not
  modelled; theorems about the grid builder are stated for years >= 100.
* JS `Date` comparison (`<`, `>`, `<=`) compares time values; for
  local-midnight dates of one timezone this is exactly the order on absolute
  day numbers, so `Int` order is the denotation of `Date` order.
* `cur.setDate(cur.getDate() + 1)` and `new Date(y, m, d + 1)` advance a date
  by one day, i.e. add 1 to the absolute day number.
* `YYYY-MM-DD` strings stay Lean `String`s; JS `<` / `>` on strings
  (UTF-16 code-unit lexicographic order) is modelled by `jsStrLt`.
-/

namespace HadaLumi

/-- Gregorian leap-year test: `y % 4 == 0 && (y % 100 != 0 || y % 400 == 0)`.
(JS `Date` uses the proleptic Gregorian calendar.) -/
def isLeapYear (y : Int) : Bool :=
  y % 4 == 0 && (!(y % 100 == 0) || y % 400 == 0)

/-- Length in days of month `n` (0 = January .. 11 = December) of year `y`. -/
def monthLen (y : Int) : Nat → Nat
  | 0 => 31
  | 1 => if isLeapYear y then 29 else 28
  | 2 => 31
  | 3 => 30
  | 4 => 31
  | 5 => 30
  | 6 => 31
  | 7 => 31
  | 8 => 30
  | 9 => 31
  | 10 => 30
  | _ => 31

/-- Days in months `0 .. n-1` of year `y` (cumulative month lengths). -/
def cumDays (y : Int) : Nat → Int
  | 0 => 0
  | 1 => 31
  | 2 => 31 + (if isLeapYear y then 29 else 28)
  | 3 => 62 + (if isLeapYear y then 29 else 28)
  | 4 => 92 + (if isLeapYear y then 29 else 28)
  | 5 => 123 + (if isLeapYear y then 29 else 28)
  | 6 => 153 + (if isLeapYear y then 29 else 28)
  | 7 => 184 + (if isLeapYear y then 29 else 28)
  | 8 => 215 + (if isLeapYear y then 29 else 28)
  | 9 => 245 + (if isLeapYear y then 29 else 28)
  | 10 => 276 + (if isLeapYear y then 29 else 28)
  | 11 => 306 + (if isLeapYear y then 29 else 28)
  | _ => 337 + (if isLeapYear y then 29 else 28)

/-- Absolute day number of `y`-01-01: 365 days per year plus one for every
leap year in `[0, y)` (year 0 itself is a leap year). -/
def yearAbs (y : Int) : Int :=
  365 * y + ((y + 3) / 4 - (y + 99) / 100 + (y + 399) / 400)

/-- Absolute day number of the first day of month `m` of year `y`, for
arbitrary `m : Int` (JS `Date` month overflow: floor-divide into the year). -/
def monthStart (y m : Int) : Int :=
  yearAbs (y + m / 12) + cumDays (y + m / 12) (m % 12).toNat

/-- Length of month `m` of year `y` with JS month normalization; this is the
value of `new Date(y, m + 1, 0).getDate()` (day-of-month of the last day of
month `m`). -/
def monthLength (y m : Int) : Nat :=
  monthLen (y + m / 12) (m % 12).toNat

/-- Denotation of `new Date(y, m, d)` (local midnight) as an absolute day
number; `m` and `d` may be out of range exactly as in JS. -/
def mkDate (y m d : Int) : Int :=
  monthStart y m + d - 1

/-- JS `Date.prototype.getDay()` (0 = Sunday .. 6 = Saturday) of an absolute
day number; day 0 (0000-01-01, proleptic Gregorian) is a Saturday. -/
def getDay (t : Int) : Nat :=
  ((t + 6) % 7).toNat

/-- One element of the `days` list built in `CalendarPage`
(`type CalendarDay = { date: Date; inCurrentMonth: boolean }`). -/
structure CalendarDay where
  date : Int
  inCurrentMonth : Bool
  deriving Repr, DecidableEq

/-- The `while (result.length < 42)` right-padding loop of `CalendarPage`:
starting after current last date `last`, append the next day `k` times,
each new cell `inCurrentMonth = false`. -/
def fillNext (last : Int) : Nat → List CalendarDay
  | 0 => []
  | k + 1 => { date := last + 1, inCurrentMonth := false } :: fillNext (last + 1) k

/-- Previous-month left padding of the `days` `useMemo` of `CalendarPage.tsx`:
`if (firstWeekday > 0) for (let i = firstWeekday - 1; i >= 0; i--)` push
`new Date(year, month - 1, prevMonthLastDay - i)` with
`prevMonthLastDay = new Date(year, month, 0).getDate()` (= `monthLength` of
month `month - 1`).  Below `j` counts the loop iterations, so the loop index
is `i = firstWeekday - 1 - j`. -/
def calPrevFill (year month : Int) : List CalendarDay :=
  if 0 < getDay (mkDate year month 1) then
    (List.range (getDay (mkDate year month 1))).map (fun j =>
      { date := mkDate year (month - 1)
          ((monthLength year (month - 1) : Int)
            - ((getDay (mkDate year month 1) - 1 - j : Nat) : Int)),
        inCurrentMonth := false })
  else []

/-- Current-month cells of the `days` `useMemo`:
`for (let d = 1; d <= daysInMonth; d++)` push `new Date(year, month, d)` with
`daysInMonth = new Date(year, month + 1, 0).getDate()` (= `monthLength` of
month `month`). -/
def calCurFill (year month : Int) : List CalendarDay :=
  (List.range (monthLength year month)).map (fun (j : Nat) =>
    { date := mkDate year month ((j : Int) + 1), inCurrentMonth := true })

/-- The `result` list of the `days` `useMemo` just before the
`while (result.length < 42)` loop. -/
def calBase (year month : Int) : List CalendarDay :=
  calPrevFill year month ++ calCurFill year month

/-- The `days` `useMemo` of `CalendarPage.tsx` (lines 282-326): previous-month
left padding to the weekday of the 1st, the current month's days, then
next-month right padding up to 42 cells.  `month` is 0-based as in JS. -/
def calendarDays (year month : Int) : List CalendarDay :=
  calBase year month ++
    fillNext ((((calBase year month).getLast?).map CalendarDay.date).getD 0)
      (42 - (calBase year month).length)

/-- The list `intSeq a n = [a, a + 1, …, a + n - 1]` of `n` consecutive day numbers. -/
def intSeq (a : Int) : Nat → List Int
  | 0 => []
  | n + 1 => a :: intSeq (a + 1) n

theorem intSeq_length (a : Int) (n : Nat) : (intSeq a n).length = n := by
  induction n generalizing a with
  | zero => rfl
  | succ k ih => simp [intSeq, ih]

theorem intSeq_append (a : Int) (n m : Nat) :
    intSeq a n ++ intSeq (a + n) m = intSeq a (n + m) := by
  induction n generalizing a with
  | zero => simp [intSeq]
  | succ k ih =>
    simp only [intSeq, List.cons_append]
    have h := ih (a + 1)
    rw [show a + 1 + (k : Int) = a + ((k + 1 : Nat) : Int) by push_cast; ring] at h
    rw [h, show k + 1 + m = (k + m) + 1 by omega]
    rfl

theorem intSeq_getLast? (a : Int) (n : Nat) (h : 0 < n) :
    (intSeq a n).getLast? = some (a + n - 1) := by
  induction n generalizing a with
  | zero => omega
  | succ k ih =>
    cases k with
    | zero => simp [intSeq]
    | succ j =>
      show (a :: (a + 1) :: intSeq (a + 1 + 1) j).getLast? = _
      rw [List.getLast?_cons_cons]
      show (intSeq (a + 1) (j + 1)).getLast? = _
      rw [ih (a + 1) (by omega)]
      congr 1
      push_cast
      ring

theorem intSeq_mem (a : Int) (n : Nat) (d : Int) :
    d ∈ intSeq a n ↔ a ≤ d ∧ d < a + n := by
  induction n generalizing a with
  | zero => simp [intSeq]
  | succ k ih =>
    simp only [intSeq, List.mem_cons, ih]
    constructor
    · rintro (rfl | ⟨h1, h2⟩) <;> constructor <;> push_cast <;> omega
    · rintro ⟨h1, h2⟩
      rcases eq_or_lt_of_le h1 with rfl | hlt
      · exact Or.inl rfl
      · right
        constructor <;> push_cast at h2 ⊢ <;> omega

theorem fillNext_dates (t : Int) (k : Nat) :
    (fillNext t k).map CalendarDay.date = intSeq (t + 1) k := by
  induction k generalizing t with
  | zero => rfl
  | succ j ih => simp [fillNext, intSeq, ih]

theorem range_map_add (n : Nat) (a : Int) :
    (List.range n).map (fun (j : Nat) => a + (j : Int)) = intSeq a n := by
  induction n generalizing a with
  | zero => rfl
  | succ k ih =>
    rw [List.range_succ, List.map_append, ih, List.map_singleton]
    exact intSeq_append a k 1

theorem yearAbs_succ (y : Int) :
    yearAbs (y + 1) = yearAbs y + 365 + (if isLeapYear y then 1 else 0) := by
  by_cases hL : isLeapYear y
  · rw [if_pos hL]
    simp only [isLeapYear, Bool.and_eq_true, Bool.or_eq_true, beq_iff_eq,
      Bool.not_eq_true', beq_eq_false_iff_ne, ne_eq] at hL
    unfold yearAbs
    omega
  · rw [if_neg hL]
    simp only [isLeapYear, Bool.and_eq_true, Bool.or_eq_true, beq_iff_eq,
      Bool.not_eq_true', beq_eq_false_iff_ne, ne_eq, not_and, not_or] at hL
    unfold yearAbs
    omega

theorem monthStart_eq (y m : Int) (h0 : 0 ≤ m) (h : m < 12) :
    monthStart y m = yearAbs y + cumDays y m.toNat := by
  have h1 : m / 12 = 0 := by omega
  have h2 : m % 12 = m := by omega
  simp [monthStart, h1, h2]

theorem monthLength_eq (y m : Int) (h0 : 0 ≤ m) (h : m < 12) :
    monthLength y m = monthLen y m.toNat := by
  have h1 : m / 12 = 0 := by omega
  have h2 : m % 12 = m := by omega
  simp [monthLength, h1, h2]

theorem monthStart_succ (y m : Int) (hm0 : -1 ≤ m) (hm : m ≤ 10) :
    monthStart y (m + 1) = monthStart y m + monthLength y m := by
  rcases eq_or_lt_of_le hm0 with rfl | hpos
  · -- m = -1 : the previous month is December of year y - 1
    have h1 : ((-1 : Int) / 12) = -1 := by decide
    have h2 : ((-1 : Int) % 12) = 11 := by decide
    have h3 : ((11 : Int)).toNat = 11 := by decide
    have h4 : ((0 : Int) / 12) = 0 := by decide
    have h5 : ((0 : Int) % 12) = 0 := by decide
    have h6 : ((0 : Int)).toNat = 0 := by decide
    have h7 : (-1 : Int) + 1 = 0 := by decide
    simp only [monthStart, monthLength, h1, h2, h3, h4, h5, h6, h7, add_zero]
    simp only [cumDays, monthLen]
    have hy := yearAbs_succ (y + -1)
    rw [show y + -1 + 1 = y by ring] at hy
    split_ifs at hy ⊢ <;> push_cast <;> omega
  · have hm1 : 0 ≤ m := by omega
    rw [monthStart_eq y (m + 1) (by omega) (by omega),
        monthStart_eq y m (by omega) (by omega),
        monthLength_eq y m (by omega) (by omega)]
    interval_cases m <;>
      · norm_num [Int.toNat_ofNat]
        simp only [cumDays, monthLen]
        first
          | (split_ifs <;> push_cast <;> omega)
          | (push_cast <;> omega)
          | omega

theorem monthLength_bounds (y m : Int) :
    28 ≤ monthLength y m ∧ monthLength y m ≤ 31 := by
  unfold monthLength monthLen
  split <;> first | omega | (split_ifs <;> omega)

theorem getDay_le (t : Int) : getDay t ≤ 6 := by
  unfold getDay
  omega

theorem calPrevFill_dates (year month : Int)
    (hpl : monthStart year (month - 1) + (monthLength year (month - 1) : Int)
             = monthStart year month) :
    (calPrevFill year month).map CalendarDay.date =
      intSeq (monthStart year month - (getDay (mkDate year month 1) : Int))
        (getDay (mkDate year month 1)) := by
  unfold calPrevFill
  rcases Nat.eq_zero_or_pos (getDay (mkDate year month 1)) with hz | hfw
  · rw [hz]
    simp [intSeq]
  · rw [if_pos hfw, List.map_map,
      ← range_map_add (getDay (mkDate year month 1))
        (monthStart year month - (getDay (mkDate year month 1) : Int))]
    apply List.map_congr_left
    intro j hj
    simp only [List.mem_range] at hj
    show mkDate year (month - 1)
      ((monthLength year (month - 1) : Int)
        - ((getDay (mkDate year month 1) - 1 - j : Nat) : Int)) = _
    have hmk : ∀ d : Int, mkDate year (month - 1) d = monthStart year (month - 1) + d - 1 :=
      fun d => rfl
    rw [hmk]
    have hc : ((getDay (mkDate year month 1) - 1 - j : Nat) : Int)
        = (getDay (mkDate year month 1) : Int) - 1 - (j : Int) := by omega
    omega

theorem calCurFill_dates (year month : Int) :
    (calCurFill year month).map CalendarDay.date =
      intSeq (monthStart year month) (monthLength year month) := by
  unfold calCurFill
  rw [List.map_map, ← range_map_add (monthLength year month) (monthStart year month)]
  apply List.map_congr_left
  intro j _
  show mkDate year month ((j : Int) + 1) = _
  show monthStart year month + ((j : Int) + 1) - 1 = _
  ring

theorem calBase_dates (year month : Int)
    (hpl : monthStart year (month - 1) + (monthLength year (month - 1) : Int)
             = monthStart year month) :
    (calBase year month).map CalendarDay.date =
      intSeq (monthStart year month - (getDay (mkDate year month 1) : Int))
        (getDay (mkDate year month 1) + monthLength year month) := by
  unfold calBase
  rw [List.map_append, calPrevFill_dates year month hpl, calCurFill_dates year month]
  have hstep : intSeq (monthStart year month) (monthLength year month)
      = intSeq ((monthStart year month - (getDay (mkDate year month 1) : Int))
          + ((getDay (mkDate year month 1) : Nat) : Int)) (monthLength year month) := by
    congr 1
    omega
  rw [hstep, intSeq_append]

theorem calBase_length (year month : Int)
    (hpl : monthStart year (month - 1) + (monthLength year (month - 1) : Int)
             = monthStart year month) :
    (calBase year month).length = getDay (mkDate year month 1) + monthLength year month := by
  have h := congrArg List.length (calBase_dates year month hpl)
  rw [List.length_map, intSeq_length] at h
  exact h

theorem calBase_getLast (year month : Int)
    (hpl : monthStart year (month - 1) + (monthLength year (month - 1) : Int)
             = monthStart year month) :
    (((calBase year month).getLast?).map CalendarDay.date).getD 0 =
      monthStart year month + (monthLength year month : Int) - 1 := by
  have h1 : ((calBase year month).map CalendarDay.date).getLast? =
      ((calBase year month).getLast?).map CalendarDay.date :=
    List.getLast?_map _ _
  have h2 := calBase_dates year month hpl
  have hlen := (monthLength_bounds year month).1
  rw [h2, intSeq_getLast? _ _ (by omega)] at h1
  rw [← h1]
  simp only [Option.getD_some]
  push_cast
  omega

/-- C3: for every valid (year, 0-based month) the `days` builder of
`CalendarPage` returns exactly 42 day descriptors whose dates are the 42
consecutive calendar days starting at the Sunday on or before the first of
the month: previous-month left padding, the month itself, next-month right
padding, with no gaps and each date exactly one day after the previous. -/
theorem calendarDays_42_consecutive (year month : Int)
    (hy : 100 ≤ year) (hm0 : 0 ≤ month) (hm : month ≤ 11) :
    (calendarDays year month).length = 42 ∧
    (calendarDays year month).map CalendarDay.date =
      intSeq (mkDate year month 1 - (getDay (mkDate year month 1) : Int)) 42 := by
  have hdb := monthLength_bounds year month
  have hfw := getDay_le (mkDate year month 1)
  have hpl : monthStart year (month - 1) + (monthLength year (month - 1) : Int)
      = monthStart year month := by
    have h := monthStart_succ year (month - 1) (by omega) (by omega)
    rw [show month - 1 + 1 = month by ring] at h
    omega
  have hF1 : mkDate year month 1 = monthStart year month := by
    show monthStart year month + 1 - 1 = monthStart year month
    ring
  have hmap : (calendarDays year month).map CalendarDay.date =
      intSeq (mkDate year month 1 - (getDay (mkDate year month 1) : Int)) 42 := by
    unfold calendarDays
    rw [List.map_append, calBase_dates year month hpl, calBase_getLast year month hpl,
      calBase_length year month hpl, fillNext_dates]
    rw [show monthStart year month + (monthLength year month : Int) - 1 + 1
        = (monthStart year month - (getDay (mkDate year month 1) : Int))
          + ((getDay (mkDate year month 1) + monthLength year month : Nat) : Int) by
      push_cast; ring]
    rw [intSeq_append]
    congr 1
    · omega
    · omega
  refine ⟨?_, hmap⟩
  have h := congrArg List.length hmap
  rw [List.length_map, intSeq_length] at h
  exact h

/-- JS string comparison (`<` on strings compares UTF-16 code units
lexicographically); for the code points used here this is the code-point
lexicographic order on the character lists. -/
def jsStrLtAux : List Char → List Char → Bool
  | _, [] => false
  | [], _ :: _ => true
  | a :: as, b :: bs =>
    if a.toNat < b.toNat then true
    else if b.toNat < a.toNat then false
    else jsStrLtAux as bs

/-- Comparison `a < b` on JS strings. -/
def jsStrLt (a b : String) : Bool :=
  jsStrLtAux a.data b.data

/-- One element of the `/cycles` response as consumed by `CalendarPage`
(`type CycleItem`): both fields optional/nullable strings. -/
structure CycleItem where
  start_date : Option String
  end_date : Option String
  deriving Repr, DecidableEq

/-- Predicate `isValidYmd` of `CalendarPage.tsx` (line 55): the value is present, truthy
and matches the regex `^\d\x7b4\x7d-\d\x7b2\x7d-\d\x7b2\x7d$` (four digits,
dash, two digits, dash, two digits; the empty string is also falsy and
rejected by the regex). -/
def isValidYmd : Option String → Bool
  | Option.none => false
  | Option.some s =>
    match s.data with
    | [y1, y2, y3, y4, s1, m1, m2, s2, d1, d2] =>
      y1.isDigit && y2.isDigit && y3.isDigit && y4.isDigit && s1 == '-' &&
      m1.isDigit && m2.isDigit && s2 == '-' && d1.isDigit && d2.isDigit
    | _ => false

/-- Numeric value of a decimal digit character. -/
def digitVal (c : Char) : Int :=
  (c.toNat : Int) - 48

/-- Function `parseYmdToLocalDate` of `CalendarPage.tsx` (lines 49-53):
split the string on `-`, convert the three parts with `Number`, and build
`new Date(y, (m ?? 1) - 1, d ?? 1)`.  Every call site first checks
`isValidYmd` (or passes a `formatYmdLocal` output), so the embedding is
defined on strings of shape digit-digit-digit-digit dash digit-digit dash
digit-digit; other strings (which would give a JS Invalid Date) are mapped
to day number 0 and are never reached under the guards. -/
def parseYmdToLocalDate (s : String) : Int :=
  match s.data with
  | [y1, y2, y3, y4, _, m1, m2, _, d1, d2] =>
    mkDate (1000 * digitVal y1 + 100 * digitVal y2 + 10 * digitVal y3 + digitVal y4)
      ((10 * digitVal m1 + digitVal m2) - 1)
      (10 * digitVal d1 + digitVal d2)
  | _ => 0

/-- The dates one fetched cycle paints in the `menstruationByDate` map of
`fetchMenstruationFromCycles` (`CalendarPage.tsx` lines 239-269), where
`fromDate`/`toDate` are the visible month's first and last day and
`todayDate` is today, all as absolute day numbers.  A cycle with an invalid
start string is skipped; a cycle without a valid end string uses
`todayDate < toDate ? todayDate : toDate`; the range is clipped to the
window and painted inclusively day by day. -/
def cycleDates (c : CycleItem) (fromDate toDate todayDate : Int) : List Int :=
  if !(isValidYmd c.start_date) then []
  else
    let cycleStart := parseYmdToLocalDate (c.start_date.getD "")
    let cycleEnd :=
      if isValidYmd c.end_date then parseYmdToLocalDate (c.end_date.getD "")
      else if todayDate < toDate then todayDate else toDate
    let start := if fromDate < cycleStart then cycleStart else fromDate
    let stop := if cycleEnd < toDate then cycleEnd else toDate
    if stop < start then []
    else intSeq start (stop - start + 1).toNat

/-- All dates painted by `fetchMenstruationFromCycles` for a fetched cycle
list (union over the cycles of their painted ranges). -/
def menstruationDates (cycles : List CycleItem) (fromDate toDate todayDate : Int) :
    List Int :=
  cycles.bind (fun c => cycleDates c fromDate toDate todayDate)

/-- The effective end of a cycle as described by the spec: `end_date` when a
(syntactically valid) end is present, otherwise the minimum of today and the
last visible day. -/
def effectiveEnd (c : CycleItem) (toDate todayDate : Int) : Int :=
  if isValidYmd c.end_date then parseYmdToLocalDate (c.end_date.getD "")
  else min todayDate toDate

theorem cycleDates_mem (c : CycleItem) (fromDate toDate todayDate d : Int)
    (hs : isValidYmd c.start_date = true) :
    d ∈ cycleDates c fromDate toDate todayDate ↔
      parseYmdToLocalDate (c.start_date.getD "") ≤ d ∧
      d ≤ effectiveEnd c toDate todayDate ∧
      fromDate ≤ d ∧ d ≤ toDate := by
  unfold cycleDates effectiveEnd
  simp only [hs, Bool.not_true, Bool.false_eq_true, if_false]
  split_ifs <;> simp_all [intSeq_mem] <;> omega

/-- C1: for a fetched cycle with a (syntactically valid) start date, the set
of dates the cycle paints in the visible month is exactly the inclusive
intersection of the cycle range (start to effective end, the effective end
being the parsed end date for a closed cycle and `min today lastDay` for an
open one) with the month window; an empty intersection paints nothing and is
no error.  In particular the open cycle starting 2024-02-20, viewed in March
2024 with today = 2024-03-10, paints exactly 2024-03-01 .. 2024-03-10. -/
theorem cycleDates_clip :
    (∀ (c : CycleItem) (fromDate toDate todayDate d : Int),
      isValidYmd c.start_date = true →
      (d ∈ cycleDates c fromDate toDate todayDate ↔
        parseYmdToLocalDate (c.start_date.getD "") ≤ d ∧
        d ≤ effectiveEnd c toDate todayDate ∧
        fromDate ≤ d ∧ d ≤ toDate)) ∧
    cycleDates (CycleItem.mk (some "2024-02-20") Option.none)
        (mkDate 2024 2 1) (mkDate 2024 2 31) (mkDate 2024 2 10)
      = intSeq (mkDate 2024 2 1) 10 :=
  ⟨fun c fromDate toDate todayDate d hs =>
      cycleDates_mem c fromDate toDate todayDate d hs,
   by decide⟩

/-- C9: a fetched cycle whose start string is not a valid `YYYY-MM-DD` paints
nothing at all, while a cycle whose end string is present but invalid is
treated exactly like an open cycle (same painted set as the cycle with
`end_date = null`). -/
theorem cycleDates_invalid_strings (c : CycleItem) (fromDate toDate todayDate : Int) :
    (isValidYmd c.start_date = false → cycleDates c fromDate toDate todayDate = []) ∧
    (∀ e, c.end_date = some e → isValidYmd (some e) = false →
      cycleDates c fromDate toDate todayDate
        = cycleDates (CycleItem.mk c.start_date Option.none) fromDate toDate todayDate) := by
  constructor
  · intro h
    unfold cycleDates
    simp [h]
  · intro e he hv
    have hnone : isValidYmd Option.none = false := rfl
    unfold cycleDates
    simp [he, hv, hnone]

/-- The three filterable metrics of `CalendarCell` (`"sleep" | "stress" |
"skincare"`). -/
inductive Metric where
  | sleep
  | stress
  | skincare
  deriving Repr, DecidableEq

/-- Type `SortDirection = "good" | "bad"`. -/
inductive SortDirection where
  | good
  | bad
  deriving Repr, DecidableEq

/-- The `SortState` tagged union of `CalendarPage`/`CalendarCell`: either
category `"none"` with `direction: null`, or a concrete category with a
direction. -/
inductive SortState where
  | noneCat
  | filtered (category : Metric) (direction : SortDirection)
  deriving Repr, DecidableEq

/-- The `DailySummary` record built by `fetchMonthlyRecords` in
`CalendarPage.tsx` (all four scores are JS numbers; missing service values
have already been defaulted to 0 at this point). -/
structure DailySummary where
  sleepQuality : Int
  stressLevel : Int
  skinCondition : Int
  skincareEffort : Int
  memo : String
  prefecture : String
  deriving Repr, DecidableEq

/-- The `scoreMap` lookup of `isIconVisible` (`CalendarCell.tsx` lines
203-209): `sleep -> sleepQuality`, `stress -> stressLevel`,
`skincare -> skincareEffort` (followed by `Number(...)`, the identity on
these already-numeric fields). -/
def scoreOf (s : DailySummary) : Metric → Int
  | .sleep => s.sleepQuality
  | .stress => s.stressLevel
  | .skincare => s.skincareEffort

/-- The `category` field of a `SortState` as an optional metric (`"none"` has no
metric). -/
def SortState.category? : SortState → Option Metric
  | .noneCat => Option.none
  | .filtered c _ => some c

/-- The `direction` field of a `SortState` (`null` for category `"none"`). -/
def SortState.direction? : SortState → Option SortDirection
  | .noneCat => Option.none
  | .filtered _ d => some d

/-- Function `isIconVisible` of `CalendarCell.tsx` (lines 196-223): no summary means
no glyph; a raw score of exactly 3 is never shown; with category `"none"`
everything else is shown; with a selected category, other metrics are
suppressed and the selected one is shown iff it passes the direction test
(good: score >= 4, bad: score <= 2). -/
def isIconVisible (summary : Option DailySummary) (sortState : SortState)
    (metric : Metric) : Bool :=
  match summary with
  | Option.none => false
  | Option.some s =>
    let score := scoreOf s metric
    if score = 3 then false
    else if sortState = SortState.noneCat then true
    else if sortState.category? ≠ some metric then false
    else if sortState.direction? = some SortDirection.good then decide (4 ≤ score)
    else decide (score ≤ 2)

/-- C4: a metric whose raw score is exactly 3 is never visible, under any
`SortState`. -/
theorem score3_never_visible (s : DailySummary) (sortState : SortState)
    (metric : Metric) (h : scoreOf s metric = 3) :
    isIconVisible (some s) sortState metric = false := by
  unfold isIconVisible
  simp [h]

/-- C5: with category `"none"` a metric is visible iff its score is not 3;
with a selected category every other metric is suppressed, and the selected
metric is visible iff it passes the direction test (good: score >= 4, bad:
score <= 2; a score of 3 passes neither). -/
theorem visibility_filter (s : DailySummary) (metric : Metric) :
    (isIconVisible (some s) SortState.noneCat metric = true ↔ scoreOf s metric ≠ 3) ∧
    (∀ (c : Metric) (dir : SortDirection), c ≠ metric →
      isIconVisible (some s) (SortState.filtered c dir) metric = false) ∧
    (∀ dir : SortDirection,
      isIconVisible (some s) (SortState.filtered metric dir) metric = true ↔
        (dir = SortDirection.good → 4 ≤ scoreOf s metric) ∧
        (dir = SortDirection.bad → scoreOf s metric ≤ 2)) := by
  refine ⟨?_, ?_, ?_⟩
  · unfold isIconVisible
    by_cases h : scoreOf s metric = 3 <;> simp [h]
  · intro c dir hc
    unfold isIconVisible
    by_cases h : scoreOf s metric = 3 <;>
      simp [h, SortState.category?, hc]
  · intro dir
    unfold isIconVisible
    cases dir <;>
      by_cases h : scoreOf s metric = 3 <;>
        simp [h, SortState.category?, SortState.direction?] <;>
          omega

/-- One element of the `/records` response (`type RecordItem` in
`CalendarPage.tsx`): every field may be absent or null.  The prefecture
fields (strings-or-numbers in TS) are modelled as strings, with JS
`String(...)` the identity on them. -/
structure RecordItem where
  date : Option String
  sleep : Option Int
  stress : Option Int
  skin_condition : Option Int
  skincare_effort : Option Int
  memo : Option String
  prefecture_code : Option String
  prefecture : Option String
  env_pref_code : Option String
  deriving Repr, DecidableEq

/-- The per-record conversion in `fetchMonthlyRecords` (`CalendarPage.tsx`
lines 184-193): each missing metric becomes 0 (`r.sleep ?? 0` etc.), the memo
becomes the empty string, and the prefecture is the first present value of
`prefecture_code ?? prefecture ?? env_pref_code ?? ""`. -/
def toDailySummary (r : RecordItem) : DailySummary where
  sleepQuality := r.sleep.getD 0
  stressLevel := r.stress.getD 0
  skinCondition := r.skin_condition.getD 0
  skincareEffort := r.skincare_effort.getD 0
  memo := r.memo.getD ""
  prefecture := ((r.prefecture_code.orElse fun _ => r.prefecture).orElse
    fun _ => r.env_pref_code).getD ""

/-- JS object property assignment `map[key] = value` on a string-keyed map,
modelled as an association list: replace the existing entry or append. -/
def setKey (m : List (String × DailySummary)) (k : String) (v : DailySummary) :
    List (String × DailySummary) :=
  if m.any (fun p => p.1 == k) then
    m.map (fun p => if p.1 == k then (k, v) else p)
  else m ++ [(k, v)]

/-- The `records.forEach` loop of `fetchMonthlyRecords`: records without a
truthy `date` key are skipped, the rest are stored under their date key. -/
def buildRecordsMap (records : List RecordItem) : List (String × DailySummary) :=
  records.foldl (fun m r =>
    match r.date with
    | Option.none => m
    | Option.some key => if key = "" then m else setKey m key (toDailySummary r)) []

/-- The raw (service-side, nullable) value backing a metric of a record. -/
def rawMetric (r : RecordItem) : Metric → Option Int
  | .sleep => r.sleep
  | .stress => r.stress
  | .skincare => r.skincare_effort

/-- C10: a record fetched with a null/missing metric is stored with score 0
(not absent), and since the visibility filter does not clamp scores, such a
metric's glyph is shown both under category `"none"` (0 is not 3) and when
the filter selects that metric with direction `"bad"` (0 <= 2), despite the
documented 1-5 score range. -/
theorem null_metric_visible (r : RecordItem) (metric : Metric)
    (h : rawMetric r metric = Option.none) :
    scoreOf (toDailySummary r) metric = 0 ∧
    isIconVisible (some (toDailySummary r)) SortState.noneCat metric = true ∧
    isIconVisible (some (toDailySummary r)) (SortState.filtered metric SortDirection.bad)
      metric = true := by
  have hz : scoreOf (toDailySummary r) metric = 0 := by
    cases metric <;> simp_all [rawMetric, scoreOf, toDailySummary]
  refine ⟨hz, ?_, ?_⟩ <;>
    simp [isIconVisible, hz, SortState.category?, SortState.direction?]

/-- Outcome of one read request against the external record service, as seen
by the calling effect: `fail` covers both a non-ok HTTP status and a thrown
transport error, `ok` carries the parsed payload. -/
inductive FetchOutcome (α : Type) where
  | fail
  | ok (payload : α)
  deriving Repr, DecidableEq

/-- Effect `fetchMenstruationFromCycles` (`CalendarPage.tsx` lines 209-279) as a
function of the fetch outcome: on `!res.ok` the map is set to the empty
object and the function returns; a thrown error is caught and also resets
the map to empty; on success the map holds the union of the painted cycle
ranges. -/
def fetchMenstruationResult (outcome : FetchOutcome (List CycleItem))
    (fromDate toDate todayDate : Int) : List Int :=
  match outcome with
  | .fail => []
  | .ok cycles => menstruationDates cycles fromDate toDate todayDate

/-- Effect `fetchMonthlyRecords` (`CalendarPage.tsx` lines 142-206) as a function of
the previous `recordsByDate` map and the fetch outcome, returning the new map
and the `fetchError` message.  A month entirely in the future short-circuits
to an empty map without any request; a non-ok response or thrown error lands
in the catch block, which only sets the error message — the previous map is
left as it was. -/
def fetchMonthlyRecordsResult (prev : List (String × DailySummary))
    (fromYmd todayYmd : String) (outcome : FetchOutcome (List RecordItem)) :
    List (String × DailySummary) × Option String :=
  if jsStrLt todayYmd fromYmd then ([], Option.none)
  else
    match outcome with
    | .fail => (prev, some "日次記録の取得に失敗しました")
    | .ok records => (buildRecordsMap records, Option.none)

/-- C8 counterexample: after a month of records has been fetched successfully,
a failing records fetch (for example when switching months) does not yield an
empty result — the previous map is retained, so the claim that a transport
failure on the monthly-summaries read degrades to an empty result is false. -/
theorem records_failure_keeps_stale :
    (fetchMonthlyRecordsResult
        [("2024-05-01",
          toDailySummary
            (RecordItem.mk (some "2024-05-01") (some 2) (some 4) (some 3) (some 5)
              Option.none Option.none Option.none Option.none))]
        "2024-06-01" "2024-06-15" FetchOutcome.fail).1 ≠ [] := by
  decide

/-- C8 (amended): ambient reads never propagate a transport failure and the
calendar still renders: a failing cycle-list read degrades to an empty
menstruation set, and a failing monthly-records read (for a month that is not
entirely in the future) records an error message while retaining the
previously fetched map (hence empty only when nothing had been fetched yet)
rather than resetting it to empty. -/
theorem ambient_reads_degrade (fromDate toDate todayDate : Int)
    (prev : List (String × DailySummary)) (fromYmd todayYmd : String)
    (hmonth : jsStrLt todayYmd fromYmd = false) :
    fetchMenstruationResult FetchOutcome.fail fromDate toDate todayDate = [] ∧
    fetchMonthlyRecordsResult prev fromYmd todayYmd FetchOutcome.fail
      = (prev, some "日次記録の取得に失敗しました") := by
  constructor
  · rfl
  · unfold fetchMonthlyRecordsResult
    simp [hmonth]

/-- A cycle record as held by `CyclesScreen` (`type CycleLog`). -/
structure CycleLog where
  cycle_id : String
  start_date : String
  end_date : Option String
  deriving Repr, DecidableEq

/-- Selector `openCycle` of `CyclesScreen.tsx` (lines 69-72): scan the fetched list
for the cycle with `end_date === null` (`find` returns the first match). -/
def openCycle (cycles : List CycleLog) : Option CycleLog :=
  cycles.find? (fun c => c.end_date.isNone)

/-- Number of open cycles in a fetched list. -/
def countOpen (cycles : List CycleLog) : Nat :=
  (cycles.filter (fun c => c.end_date.isNone)).length

/-- The component state of `CyclesScreen` relevant to the cycle flows:
the fetched `cycles` list, the two drafts, the status messages, the saving
and start-editing flags, and the three rollback refs. -/
structure CyclesScreenState where
  cycles : List CycleLog
  startDraft : String
  endDraft : String
  error : Option String
  message : Option String
  isSaving : Bool
  isEditingStart : Bool
  prevStartRef : String
  prevEndRef : String
  prevStartBeforeEditRef : String
  deriving Repr, DecidableEq

/-- Outcome of one mutation flow against the service: `fail` covers a non-ok
response on the mutation itself and a failure of the follow-up `fetchCycles`
(both land in the same catch block); `ok fresh` means the mutation succeeded
and the follow-up `fetchCycles` returned `fresh`. -/
inductive MutationOutcome where
  | fail
  | ok (fresh : List CycleLog)
  deriving Repr, DecidableEq

/-- Condition `disabled` of the 開始日を登録 (start) button
(`CyclesScreen.tsx` line 425): `isSaving || !!openCycle || !startDraft`. -/
def startDisabled (s : CyclesScreenState) : Bool :=
  s.isSaving || (openCycle s.cycles).isSome || s.startDraft == ""

/-- The start button's `onClick` (`CyclesScreen.tsx` lines 426-461) as a
state transition; the returned boolean is whether a request was issued.
A click on a disabled button is a no-op.  The handler first saves the drafts
into the rollback refs, then validates locally (empty or future start date
set an inline error and return before any request), then issues
`POST /cycles`; on success the list is replaced by the fresh fetch, on
failure the drafts are restored from the refs and an error is surfaced. -/
def startClick (today : String) (s : CyclesScreenState) (o : MutationOutcome) :
    CyclesScreenState × Bool :=
  if startDisabled s then (s, false)
  else
    let s := { s with prevStartRef := s.startDraft, prevEndRef := s.endDraft }
    if s.startDraft = "" then
      ({ s with error := some "開始日を入力してください" }, false)
    else if jsStrLt today s.startDraft then
      ({ s with error := some "開始日は未来の日付を指定できません" }, false)
    else
      match o with
      | .ok fresh =>
        ({ s with isSaving := false, error := Option.none,
                  message := some ("開始日（" ++ s.startDraft ++ "）を登録しました"),
                  cycles := fresh }, true)
      | .fail =>
        ({ s with isSaving := false,
                  startDraft := s.prevStartRef, endDraft := s.prevEndRef,
                  error := some "開始日の登録に失敗しました（未終了がある等）",
                  message := Option.none }, true)

/-- The 開始日を更新 (patch start of the open cycle) button's `onClick`
(`CyclesScreen.tsx` lines 332-386).  The button only exists when an open
cycle is shown in edit mode and is `disabled` on `isSaving || !startDraft`.
The handler stores `openCycle.start_date` (the pre-mutation value) and the
end draft in the rollback refs, validates locally, then issues
`PATCH /cycles/id`; on success the list is refreshed and edit mode ends, on
failure the drafts are restored from the refs. -/
def patchStartClick (today : String) (s : CyclesScreenState) (o : MutationOutcome) :
    CyclesScreenState × Bool :=
  match openCycle s.cycles with
  | Option.none => (s, false)
  | Option.some oc =>
    if !s.isEditingStart || s.isSaving || s.startDraft == "" then (s, false)
    else
      let s := { s with prevStartRef := oc.start_date, prevEndRef := s.endDraft }
      if s.startDraft = "" then
        ({ s with error := some "開始日を入力してください" }, false)
      else if jsStrLt today s.startDraft then
        ({ s with error := some "開始日は未来の日付を指定できません" }, false)
      else if s.endDraft != "" && jsStrLt s.endDraft s.startDraft then
        ({ s with error := some "終了日は開始日以降の日付を指定してください" }, false)
      else
        match o with
        | .ok fresh =>
          ({ s with isSaving := false, error := Option.none,
                    message := some ("開始日（" ++ s.startDraft ++ "）を更新しました"),
                    cycles := fresh, isEditingStart := false,
                    prevStartBeforeEditRef := s.startDraft }, true)
        | .fail =>
          ({ s with isSaving := false,
                    startDraft := s.prevStartRef, endDraft := s.prevEndRef,
                    error := some "開始日の更新に失敗しました",
                    message := Option.none }, true)

/-- The 終了日を登録 (end the open cycle) button's `onClick`
(`CyclesScreen.tsx` lines 483-522); `disabled` is
`isSaving || !openCycle || !endDraft || isEditingStart` (line 482).
The handler saves both drafts into the refs, validates locally, then issues
`PATCH /cycles/end`; on success the list is refreshed, on failure the drafts
are restored from the refs. -/
def endClick (today : String) (s : CyclesScreenState) (o : MutationOutcome) :
    CyclesScreenState × Bool :=
  if s.isSaving || !(openCycle s.cycles).isSome || s.endDraft == "" || s.isEditingStart then
    (s, false)
  else
    let s := { s with prevStartRef := s.startDraft, prevEndRef := s.endDraft }
    if s.endDraft = "" then
      ({ s with error := some "終了日を入力してください" }, false)
    else if jsStrLt today s.endDraft then
      ({ s with error := some "終了日は未来の日付を指定できません" }, false)
    else if s.startDraft != "" && jsStrLt s.endDraft s.startDraft then
      ({ s with error := some "終了日は開始日以降の日付を指定してください" }, false)
    else
      match o with
      | .ok fresh =>
        ({ s with isSaving := false, error := Option.none,
                  message := some ("終了日（" ++ s.endDraft ++ "）を登録しました"),
                  cycles := fresh }, true)
      | .fail =>
        ({ s with isSaving := false,
                  startDraft := s.prevStartRef, endDraft := s.prevEndRef,
                  error := some "終了日の登録に失敗しました（未終了が無い等）",
                  message := Option.none }, true)

/-- Local state of one `PastCycleCard` (its `start` and `end` inputs; the JS
field `end` is a Lean keyword, hence `endStr`). -/
structure CardState where
  start : String
  endStr : String
  deriving Repr, DecidableEq

/-- Handler `PastCycleCard.handleUpdate` (`CyclesScreen.tsx` lines 122-159) plus the
card's `disabled` condition `isSaving || !start` (line 207), as a transition
on the card state and the parent screen state.  The handler captures the
current card values (`prevStart`/`prevEnd`), validates locally (end before
start, or future dates, set an inline error and return), then issues
`PATCH /cycles/id`; on success the parent refetches the list, on failure
the captured card values are restored and an error is surfaced. -/
def pastUpdateClick (today : String) (card : CardState) (s : CyclesScreenState)
    (o : MutationOutcome) : CardState × CyclesScreenState × Bool :=
  if s.isSaving || card.start == "" then (card, s, false)
  else if card.endStr != "" && jsStrLt card.endStr card.start then
    (card, { s with error := some "終了日は開始日以降の日付を指定してください" }, false)
  else if jsStrLt today card.start || (card.endStr != "" && jsStrLt today card.endStr) then
    (card, { s with error := some "開始日・終了日は未来の日付を指定できません" }, false)
  else
    match o with
    | .ok fresh =>
      (card, { s with isSaving := false, error := Option.none,
                      message := some "更新しました", cycles := fresh }, true)
    | .fail =>
      ({ start := card.start, endStr := card.endStr },
       { s with isSaving := false, error := some "更新に失敗しました",
                message := Option.none }, true)

/-- One client-side step of the cycles screen: the initial/refreshing
`fetchCycles` (which replaces the list with the service response) or a click
on one of the four mutating controls. -/
inductive ScreenStep where
  | refetch (fresh : List CycleLog)
  | start (o : MutationOutcome)
  | patchStart (o : MutationOutcome)
  | endCycle (o : MutationOutcome)
  | pastUpdate (card : CardState) (o : MutationOutcome)
  deriving Repr, DecidableEq

/-- Apply one step to the screen state. -/
def applyStep (today : String) (s : CyclesScreenState) : ScreenStep → CyclesScreenState
  | .refetch fresh => { s with cycles := fresh }
  | .start o => (startClick today s o).1
  | .patchStart o => (patchStartClick today s o).1
  | .endCycle o => (endClick today s o).1
  | .pastUpdate card o => (pastUpdateClick today card s o).2.1

/-- The service contract on every cycle list it returns: at most one open
cycle per user (the service rejects creating a second open cycle). -/
def outcomeListsOk : MutationOutcome → Prop
  | .fail => True
  | .ok fresh => countOpen fresh ≤ 1

/-- Every cycle list delivered by the step respects the service contract. -/
def stepListsOk : ScreenStep → Prop
  | .refetch fresh => countOpen fresh ≤ 1
  | .start o => outcomeListsOk o
  | .patchStart o => outcomeListsOk o
  | .endCycle o => outcomeListsOk o
  | .pastUpdate _ o => outcomeListsOk o

theorem startClick_cycles (today : String) (s : CyclesScreenState) (o : MutationOutcome) :
    (startClick today s o).1.cycles = s.cycles ∨
      ∃ l, o = MutationOutcome.ok l ∧ (startClick today s o).1.cycles = l := by
  cases o with
  | fail => left; simp only [startClick]; split_ifs <;> rfl
  | ok l =>
    simp only [startClick]
    split_ifs <;> first | (left; rfl) | (right; exact ⟨l, rfl, rfl⟩)

theorem patchStartClick_cycles (today : String) (s : CyclesScreenState) (o : MutationOutcome) :
    (patchStartClick today s o).1.cycles = s.cycles ∨
      ∃ l, o = MutationOutcome.ok l ∧ (patchStartClick today s o).1.cycles = l := by
  cases o with
  | fail =>
    left
    simp only [patchStartClick]
    cases openCycle s.cycles <;> simp <;> split_ifs <;> rfl
  | ok l =>
    simp only [patchStartClick]
    cases openCycle s.cycles
    · left; rfl
    · simp only
      split_ifs <;> first | (left; rfl) | (right; exact ⟨l, rfl, rfl⟩)

theorem endClick_cycles (today : String) (s : CyclesScreenState) (o : MutationOutcome) :
    (endClick today s o).1.cycles = s.cycles ∨
      ∃ l, o = MutationOutcome.ok l ∧ (endClick today s o).1.cycles = l := by
  cases o with
  | fail => left; simp only [endClick]; split_ifs <;> rfl
  | ok l =>
    simp only [endClick]
    split_ifs <;> first | (left; rfl) | (right; exact ⟨l, rfl, rfl⟩)

theorem pastUpdateClick_cycles (today : String) (card : CardState)
    (s : CyclesScreenState) (o : MutationOutcome) :
    (pastUpdateClick today card s o).2.1.cycles = s.cycles ∨
      ∃ l, o = MutationOutcome.ok l ∧ (pastUpdateClick today card s o).2.1.cycles = l := by
  cases o with
  | fail => left; simp only [pastUpdateClick]; split_ifs <;> rfl
  | ok l =>
    simp only [pastUpdateClick]
    split_ifs <;> first | (left; rfl) | (right; exact ⟨l, rfl, rfl⟩)

/-- C2: granting the service contract (every fetched list has at most one
open cycle), every client-side step of the cycles screen preserves the
at-most-one-open-cycle invariant of the store snapshot; the open cycle is
the first-match scan of the fetched list, and whenever it exists the start
(create) control is disabled. -/
theorem open_cycle_invariant (today : String) (s : CyclesScreenState) (st : ScreenStep)
    (hs : countOpen s.cycles ≤ 1) (hok : stepListsOk st) :
    countOpen (applyStep today s st).cycles ≤ 1 ∧
    openCycle s.cycles = s.cycles.find? (fun c => c.end_date.isNone) ∧
    ((openCycle s.cycles).isSome = true → startDisabled s = true) := by
  refine ⟨?_, rfl, ?_⟩
  · cases st with
    | refetch fresh => simpa [applyStep] using hok
    | start o =>
      rcases startClick_cycles today s o with h | ⟨l, rfl, h⟩
      · rw [show applyStep today s (ScreenStep.start o) = (startClick today s o).1 from rfl, h]
        exact hs
      · rw [show applyStep today s (ScreenStep.start (MutationOutcome.ok l))
            = (startClick today s (MutationOutcome.ok l)).1 from rfl, h]
        exact hok
    | patchStart o =>
      rcases patchStartClick_cycles today s o with h | ⟨l, rfl, h⟩
      · rw [show applyStep today s (ScreenStep.patchStart o)
            = (patchStartClick today s o).1 from rfl, h]
        exact hs
      · rw [show applyStep today s (ScreenStep.patchStart (MutationOutcome.ok l))
            = (patchStartClick today s (MutationOutcome.ok l)).1 from rfl, h]
        exact hok
    | endCycle o =>
      rcases endClick_cycles today s o with h | ⟨l, rfl, h⟩
      · rw [show applyStep today s (ScreenStep.endCycle o) = (endClick today s o).1 from rfl, h]
        exact hs
      · rw [show applyStep today s (ScreenStep.endCycle (MutationOutcome.ok l))
            = (endClick today s (MutationOutcome.ok l)).1 from rfl, h]
        exact hok
    | pastUpdate card o =>
      rcases pastUpdateClick_cycles today card s o with h | ⟨l, rfl, h⟩
      · rw [show applyStep today s (ScreenStep.pastUpdate card o)
            = (pastUpdateClick today card s o).2.1 from rfl, h]
        exact hs
      · rw [show applyStep today s (ScreenStep.pastUpdate card (MutationOutcome.ok l))
            = (pastUpdateClick today card s (MutationOutcome.ok l)).2.1 from rfl, h]
        exact hok
  · intro h
    simp [startDisabled, h]

/-- C6: an enabled start attempt whose start draft is strictly later than
today is rejected by the local validation: the inline error is set, no
request is issued, and the cycle list and both drafts are unchanged (only
the rollback refs are written). -/
theorem start_future_rejected (today : String) (s : CyclesScreenState)
    (henabled : startDisabled s = false)
    (hfuture : jsStrLt today s.startDraft = true) (o : MutationOutcome) :
    startClick today s o =
      ({ s with prevStartRef := s.startDraft, prevEndRef := s.endDraft,
                error := some "開始日は未来の日付を指定できません" }, false) := by
  have hne : ¬ s.startDraft = "" := by
    simp only [startDisabled, Bool.or_eq_false_iff, beq_eq_false_iff_ne, ne_eq] at henabled
    exact henabled.2
  unfold startClick
  rw [henabled]
  simp only [Bool.false_eq_true, if_false, hne, hfuture, if_true]

/-- C7: in each of the four mutating cycle flows (start, patch of the open
cycle's start date, edit of a closed past cycle, end) the pre-mutation values
are captured before the request; whenever a request was actually issued and
failed, the captured values are restored verbatim (for start/end: the drafts
as of the click; for the start-date patch: the open cycle's stored start
date; for a past-cycle card: the card's values) and a user-facing error is
surfaced; whenever it succeeded, the local list is replaced by the fresh
service fetch instead of any optimistic value. -/
theorem mutation_rollback_or_refresh (today : String) (s : CyclesScreenState)
    (card : CardState) (fresh : List CycleLog) :
    ((startClick today s MutationOutcome.fail).2 = true →
      (startClick today s MutationOutcome.fail).1.startDraft = s.startDraft ∧
      (startClick today s MutationOutcome.fail).1.endDraft = s.endDraft ∧
      (startClick today s MutationOutcome.fail).1.error.isSome = true) ∧
    ((startClick today s (MutationOutcome.ok fresh)).2 = true →
      (startClick today s (MutationOutcome.ok fresh)).1.cycles = fresh) ∧
    (∀ oc, openCycle s.cycles = some oc →
      (patchStartClick today s MutationOutcome.fail).2 = true →
      (patchStartClick today s MutationOutcome.fail).1.startDraft = oc.start_date ∧
      (patchStartClick today s MutationOutcome.fail).1.endDraft = s.endDraft ∧
      (patchStartClick today s MutationOutcome.fail).1.error.isSome = true) ∧
    ((patchStartClick today s (MutationOutcome.ok fresh)).2 = true →
      (patchStartClick today s (MutationOutcome.ok fresh)).1.cycles = fresh) ∧
    ((endClick today s MutationOutcome.fail).2 = true →
      (endClick today s MutationOutcome.fail).1.startDraft = s.startDraft ∧
      (endClick today s MutationOutcome.fail).1.endDraft = s.endDraft ∧
      (endClick today s MutationOutcome.fail).1.error.isSome = true) ∧
    ((endClick today s (MutationOutcome.ok fresh)).2 = true →
      (endClick today s (MutationOutcome.ok fresh)).1.cycles = fresh) ∧
    ((pastUpdateClick today card s MutationOutcome.fail).2.2 = true →
      (pastUpdateClick today card s MutationOutcome.fail).1 = card ∧
      (pastUpdateClick today card s MutationOutcome.fail).2.1.error.isSome = true) ∧
    ((pastUpdateClick today card s (MutationOutcome.ok fresh)).2.2 = true →
      (pastUpdateClick today card s (MutationOutcome.ok fresh)).2.1.cycles = fresh) := by
  refine ⟨?_, ?_, ?_, ?_, ?_, ?_, ?_, ?_⟩
  · simp only [startClick]
    split_ifs <;> simp
  · simp only [startClick]
    split_ifs <;> simp
  · intro oc hoc
    simp only [patchStartClick, hoc]
    split_ifs <;> simp
  · simp only [patchStartClick]
    cases openCycle s.cycles
    · simp
    · simp only
      split_ifs <;> simp
  · simp only [endClick]
    split_ifs <;> simp
  · simp only [endClick]
    split_ifs <;> simp
  · simp only [pastUpdateClick]
    split_ifs <;> simp
  · simp only [pastUpdateClick]
    split_ifs <;> simp

/-- A concrete screen state used by the concrete instantiations below:
no fetched cycles, drafts 2024-06-01 / 2024-06-05, idle flags. -/
def demoState : CyclesScreenState :=
  CyclesScreenState.mk [] "2024-06-01" "2024-06-05" Option.none Option.none
    false false "" "" ""

/-- Like `demoState` but with a start draft in the far future. -/
def demoFutureState : CyclesScreenState :=
  CyclesScreenState.mk [] "2099-01-01" "2099-01-01" Option.none Option.none
    false false "" "" ""

/-- Witness for C1 at clipping scenario E (open cycle starting 2024-02-20,
March 2024 window, today 2024-03-10, sample date 2024-03-05). -/
theorem cycleDates_clip_witness :
    isValidYmd (some "2024-02-20") = true ∧
    (mkDate 2024 2 5 ∈ cycleDates (CycleItem.mk (some "2024-02-20") Option.none)
        (mkDate 2024 2 1) (mkDate 2024 2 31) (mkDate 2024 2 10) ↔
      parseYmdToLocalDate
          ((CycleItem.mk (some "2024-02-20") Option.none).start_date.getD "")
        ≤ mkDate 2024 2 5 ∧
      mkDate 2024 2 5 ≤ effectiveEnd (CycleItem.mk (some "2024-02-20") Option.none)
        (mkDate 2024 2 31) (mkDate 2024 2 10) ∧
      mkDate 2024 2 1 ≤ mkDate 2024 2 5 ∧ mkDate 2024 2 5 ≤ mkDate 2024 2 31) :=
  ⟨by decide,
   cycleDates_clip.1 (CycleItem.mk (some "2024-02-20") Option.none)
     (mkDate 2024 2 1) (mkDate 2024 2 31) (mkDate 2024 2 10) (mkDate 2024 2 5)
     (by decide)⟩

/-- Witness for C9: an invalid start string paints nothing; a present but
invalid end string behaves exactly like a null end. -/
theorem cycleDates_invalid_strings_witness :
    cycleDates (CycleItem.mk (some "2024/02/20") Option.none) 5 10 7 = [] ∧
    cycleDates (CycleItem.mk (some "2024-02-20") (some "not-a-date"))
        (mkDate 2024 2 1) (mkDate 2024 2 31) (mkDate 2024 2 10)
      = cycleDates (CycleItem.mk (some "2024-02-20") Option.none)
        (mkDate 2024 2 1) (mkDate 2024 2 31) (mkDate 2024 2 10) :=
  ⟨(cycleDates_invalid_strings (CycleItem.mk (some "2024/02/20") Option.none) 5 10 7).1
     (by decide),
   (cycleDates_invalid_strings (CycleItem.mk (some "2024-02-20") (some "not-a-date"))
     (mkDate 2024 2 1) (mkDate 2024 2 31) (mkDate 2024 2 10)).2
     "not-a-date" rfl (by decide)⟩

/-- Witness for C3 at March 2024. -/
theorem calendarDays_42_consecutive_witness :
    (100 : Int) ≤ 2024 ∧ (0 : Int) ≤ 2 ∧ (2 : Int) ≤ 11 ∧
    ((calendarDays 2024 2).length = 42 ∧
     (calendarDays 2024 2).map CalendarDay.date =
       intSeq (mkDate 2024 2 1 - (getDay (mkDate 2024 2 1) : Int)) 42) :=
  ⟨by decide, by decide, by decide,
   calendarDays_42_consecutive 2024 2 (by decide) (by decide) (by decide)⟩

/-- Witness for C4: a sleep score of exactly 3 is hidden. -/
theorem score3_never_visible_witness :
    scoreOf (DailySummary.mk 3 1 2 5 "" "") Metric.sleep = 3 ∧
    isIconVisible (some (DailySummary.mk 3 1 2 5 "" "")) SortState.noneCat
      Metric.sleep = false :=
  ⟨by decide,
   score3_never_visible (DailySummary.mk 3 1 2 5 "" "") SortState.noneCat
     Metric.sleep (by decide)⟩

/-- Witness for C5 at end-to-end scenario B: sleepQuality 5, stressLevel 1
under category sleep / direction good — sleep shown, stress suppressed. -/
theorem visibility_filter_witness :
    Metric.sleep ≠ Metric.stress ∧
    isIconVisible (some (DailySummary.mk 5 1 3 3 "" ""))
      (SortState.filtered Metric.sleep SortDirection.good) Metric.stress = false ∧
    isIconVisible (some (DailySummary.mk 5 1 3 3 "" ""))
      (SortState.filtered Metric.sleep SortDirection.good) Metric.sleep = true :=
  ⟨by decide,
   (visibility_filter (DailySummary.mk 5 1 3 3 "" "") Metric.stress).2.1
     Metric.sleep SortDirection.good (by decide),
   ((visibility_filter (DailySummary.mk 5 1 3 3 "" "") Metric.sleep).2.2
     SortDirection.good).mpr (by decide)⟩

/-- Witness for C10: a record with a null sleep value is stored with sleep
score 0 and its sleep glyph shows both unfiltered and under sleep/bad. -/
theorem null_metric_visible_witness :
    rawMetric (RecordItem.mk (some "2024-06-01") Option.none (some 2) (some 4)
        (some 5) Option.none Option.none Option.none Option.none) Metric.sleep
      = Option.none ∧
    (scoreOf (toDailySummary (RecordItem.mk (some "2024-06-01") Option.none (some 2)
        (some 4) (some 5) Option.none Option.none Option.none Option.none))
        Metric.sleep = 0 ∧
     isIconVisible (some (toDailySummary (RecordItem.mk (some "2024-06-01")
        Option.none (some 2) (some 4) (some 5) Option.none Option.none Option.none
        Option.none))) SortState.noneCat Metric.sleep = true ∧
     isIconVisible (some (toDailySummary (RecordItem.mk (some "2024-06-01")
        Option.none (some 2) (some 4) (some 5) Option.none Option.none Option.none
        Option.none))) (SortState.filtered Metric.sleep SortDirection.bad)
        Metric.sleep = true) :=
  ⟨rfl,
   null_metric_visible (RecordItem.mk (some "2024-06-01") Option.none (some 2)
     (some 4) (some 5) Option.none Option.none Option.none Option.none)
     Metric.sleep (by decide)⟩

/-- Witness for C8 (amended) at a concrete June 2024 view. -/
theorem ambient_reads_degrade_witness :
    jsStrLt "2024-06-15" "2024-06-01" = false ∧
    (fetchMenstruationResult FetchOutcome.fail 0 30 15 = [] ∧
     fetchMonthlyRecordsResult [] "2024-06-01" "2024-06-15" FetchOutcome.fail
       = ([], some "日次記録の取得に失敗しました")) :=
  ⟨by decide,
   ambient_reads_degrade 0 30 15 [] "2024-06-01" "2024-06-15" (by decide)⟩

/-- Witness for C2: a refetch returning a single open cycle on top of an
empty snapshot. -/
theorem open_cycle_invariant_witness :
    countOpen demoState.cycles ≤ 1 ∧
    stepListsOk (ScreenStep.refetch [CycleLog.mk "c1" "2024-06-01" Option.none]) ∧
    (countOpen (applyStep "2024-06-10" demoState
        (ScreenStep.refetch [CycleLog.mk "c1" "2024-06-01" Option.none])).cycles ≤ 1 ∧
     openCycle demoState.cycles
       = demoState.cycles.find? (fun c => c.end_date.isNone) ∧
     ((openCycle demoState.cycles).isSome = true → startDisabled demoState = true)) :=
  ⟨by unfold demoState countOpen; decide,
   by unfold stepListsOk countOpen; decide,
   open_cycle_invariant "2024-06-10" demoState
     (ScreenStep.refetch [CycleLog.mk "c1" "2024-06-01" Option.none])
     (by unfold demoState countOpen; decide)
     (by unfold stepListsOk countOpen; decide)⟩

/-- Witness for C6: start draft 2099-01-01 with today 2024-06-01. -/
theorem start_future_rejected_witness :
    startDisabled demoFutureState = false ∧
    jsStrLt "2024-06-01" demoFutureState.startDraft = true ∧
    startClick "2024-06-01" demoFutureState MutationOutcome.fail =
      ({ demoFutureState with
           prevStartRef := demoFutureState.startDraft,
           prevEndRef := demoFutureState.endDraft,
           error := some "開始日は未来の日付を指定できません" }, false) :=
  ⟨by decide, by decide,
   start_future_rejected "2024-06-01" demoFutureState (by decide) (by decide)
     MutationOutcome.fail⟩

/-- Witness for C7: a failing start request from `demoState` keeps the
drafts and surfaces an error. -/
theorem mutation_rollback_or_refresh_witness :
    (startClick "2024-06-10" demoState MutationOutcome.fail).2 = true ∧
    ((startClick "2024-06-10" demoState MutationOutcome.fail).1.startDraft
        = demoState.startDraft ∧
     (startClick "2024-06-10" demoState MutationOutcome.fail).1.endDraft
        = demoState.endDraft ∧
     (startClick "2024-06-10" demoState MutationOutcome.fail).1.error.isSome = true) :=
  ⟨by decide,
   (mutation_rollback_or_refresh "2024-06-10" demoState (CardState.mk "" "") []).1
     (by decide)⟩
